import Mathlib

/-!
Shallow embedding of the FitTrackLite streak & gamification engine.

Source files embedded here:
* `src/lib/streak.ts` (persisted-state record `StreakData`, the transitions
  `updateStreakData`, `checkAndResetStreak`, `resetStreakData`);
* `src/lib/xp.ts` (`calculateXp` and its XP constants);
* `src/contexts/WorkoutContext.tsx` (the `addWorkout` coordinator).

Modelling decisions:
* Calendar dates are day numbers (`Int`, days since an arbitrary epoch).  Both
  the source's `Date` values are normalised to local midnight before use, so
  `isSameDay` becomes equality, `differenceInDays` becomes subtraction and
  `subDays d n` becomes `d - n`.  The epoch is chosen so that day `0` is a
  Thursday (as for the Unix epoch), hence `isSunday d ↔ (d + 4) % 7 = 0`.
* The numeric fields of `StreakData` are `Int` (JavaScript numbers holding
  integer values); `x % 7 === 0` agrees with Lean's `% 7 = 0` on `Int` because
  both remainders vanish exactly on multiples of 7.
* XP amounts flow through `Math.round`; the one place a non-integer can arise
  is the goal-completion difficulty multiplier, so the intermediate `xpGained`
  is a rational and `jsRound` models `Math.round` (round half towards +∞).
* Persistence (`localStorage`) and notifications (`toast`, `console.log`) are
  side effects outside the state transition and are dropped.
-/

namespace FitTrack

/-- Predicate `isSunday` of date-fns on a normalised date: day 0 is a Thursday, so day
`d` is a Sunday exactly when `(d + 4) % 7 = 0`. -/
def isSunday (d : Int) : Bool := (d + 4) % 7 == 0

/-- The `StreakData` record from `src/types/workout.ts`.  The two date fields
are stored as `"YYYY-MM-DD"` strings or `null` in the source; here they are
optional day numbers. -/
structure StreakData where
  currentStreak : Int
  longestStreak : Int
  lastWorkoutDate : Option Int
  streakFreezes : Int
  lastFreezeEarnedDate : Option Int
deriving DecidableEq, Repr

/-- The zero-valued default produced by `getInitialStreakData` /
`resetStreakData` in `src/lib/streak.ts`. -/
def initialStreakData : StreakData :=
  { currentStreak := 0
    longestStreak := 0
    lastWorkoutDate := none
    streakFreezes := 0
    lastFreezeEarnedDate := none }

/-- The `// Update longest streak` step of `updateStreakData`:
`longestStreak := max longestStreak currentStreak`, written as in the source. -/
def bumpLongest (afterDate : StreakData) : StreakData :=
  if afterDate.currentStreak > afterDate.longestStreak then
    { afterDate with longestStreak := afterDate.currentStreak }
  else afterDate

/-- Tail of `updateStreakData` (from the `// Update longest streak` comment
down): bump `longestStreak`, then the freeze-earning logic.  `currentData` is
the pre-update record, `afterDate` the record after the streak-counter and
`lastWorkoutDate` updates, `newWorkoutDate` the normalised workout date. -/
def finishUpdate (currentData afterDate : StreakData) (newWorkoutDate : Int) :
    StreakData :=
  let afterLongest := bumpLongest afterDate
  let previousStreakLevel := currentData.currentStreak
  let justReachedMilestone :=
    afterLongest.currentStreak > previousStreakLevel ∧
      afterLongest.currentStreak % 7 = 0
  if justReachedMilestone then
    let milestoneStartDate := newWorkoutDate - afterLongest.currentStreak % 7
    let alreadyEarnedThisMilestone : Bool :=
      match afterLongest.lastFreezeEarnedDate with
      | some lastEarnedDate =>
          decide (lastEarnedDate ≥ milestoneStartDate ∧
            currentData.lastFreezeEarnedDate = afterLongest.lastFreezeEarnedDate)
      | none => false
    if alreadyEarnedThisMilestone then afterLongest
    else
      { afterLongest with
          streakFreezes := afterLongest.streakFreezes + 1
          lastFreezeEarnedDate := some newWorkoutDate }
  else afterLongest

/-- Transition `updateStreakData` from `src/lib/streak.ts`: the new-workout streak
transition.  Dates arrive normalised (day numbers). -/
def updateStreakData (currentData : StreakData) (newWorkoutDate : Int) :
    StreakData :=
  match currentData.lastWorkoutDate with
  | some lastWorkoutDate =>
      if newWorkoutDate = lastWorkoutDate then
        currentData
      else
        let daysBetween := newWorkoutDate - lastWorkoutDate
        let afterStreak :=
          if daysBetween = 1 then
            { currentData with currentStreak := currentData.currentStreak + 1 }
          else if daysBetween > 1 then
            { currentData with currentStreak := 1 }
          else currentData
        let afterDate :=
          if newWorkoutDate > lastWorkoutDate then
            { afterStreak with lastWorkoutDate := some newWorkoutDate }
          else afterStreak
        finishUpdate currentData afterDate newWorkoutDate
  | none =>
      let afterStreak := { currentData with currentStreak := 1 }
      let afterDate := { afterStreak with lastWorkoutDate := some newWorkoutDate }
      finishUpdate currentData afterDate newWorkoutDate

/-- Transition `checkAndResetStreak` from `src/lib/streak.ts`: the on-load gap check,
parameterised by the normalised current date `today`. -/
def checkAndResetStreak (data : StreakData) (today : Int) : StreakData :=
  match data.lastWorkoutDate with
  | none => data
  | some lastWorkoutDate =>
      if today = lastWorkoutDate then data
      else
        let daysSinceLast := today - lastWorkoutDate
        if daysSinceLast = 1 then data
        else if daysSinceLast > 1 then
          let yesterday := today - 1
          if daysSinceLast = 2 ∧ isSunday yesterday then data
          else
            let gapDays := daysSinceLast - 1
            if data.streakFreezes ≥ gapDays then
              { data with
                  streakFreezes := data.streakFreezes - gapDays
                  lastWorkoutDate := some yesterday }
            else
              { data with currentStreak := 0 }
        else data

/-- Operation `resetStreakData` from `src/lib/streak.ts`: returns the zero default. -/
def resetStreakData : StreakData := initialStreakData

/-! ## XP store (`src/lib/xp.ts`) -/

def BASE_WORKOUT_XP : Int := 10

def DAILY_GOAL_COMPLETION_XP : Int := 5

def GOAL_COMPLETION_BASE_XP : Int := 100

/-- Table `STREAK_MILESTONE_XP` from `src/lib/xp.ts`, already in the ascending
threshold order produced by `Object.keys(...).map(Number).sort((a,b) => a-b)`. -/
def STREAK_MILESTONE_XP : List (Int × Int) :=
  [(7, 50), (14, 100), (30, 250), (60, 500)]

/-- The milestone scan inside the `log_workout` case of `calculateXp`: walk the
thresholds in ascending order and return the bonus of the first one with
`currentStreak ≥ threshold ∧ previousStreak < threshold` (the loop `break`s
after the first hit), or `0` when none is crossed. -/
def firstMilestoneBonus :
    List (Int × Int) → Int → Int → Int
  | [], _, _ => 0
  | (milestoneDays, bonus) :: rest, previousStreak, currentStreak =>
      if currentStreak ≥ milestoneDays ∧ previousStreak < milestoneDays then
        bonus
      else firstMilestoneBonus rest previousStreak currentStreak

/-- JavaScript Math.round on a rational: round half towards +∞. -/
def jsRound (q : ℚ) : Int := ⌊q + 1 / 2⌋

/-- The `XpEvent` union from `src/lib/xp.ts`.  Payload fields that do not
enter the XP computation (the workout record, goal id and title) are elided;
only the optional `difficultyMultiplier` of `complete_goal` remains. -/
inductive XpEvent where
  | log_workout
  | complete_goal (difficultyMultiplier : Option ℚ)
  | complete_daily_target
deriving DecidableEq

/-- Function `calculateXp` from `src/lib/xp.ts` (persistence side effect dropped).
`event.difficultyMultiplier || 1` maps a missing *or zero* multiplier to 1,
which the `match`/`if` below reproduces. -/
def calculateXp (currentXp : Int) (event : XpEvent)
    (currentStreakData previousStreakData : Option StreakData) : Int :=
  let xpGained : ℚ :=
    match event with
    | .log_workout =>
        match currentStreakData, previousStreakData with
        | some c, some p =>
            (BASE_WORKOUT_XP : ℚ) +
              (firstMilestoneBonus STREAK_MILESTONE_XP
                p.currentStreak c.currentStreak : ℚ)
        | _, _ => (BASE_WORKOUT_XP : ℚ)
    | .complete_goal difficultyMultiplier =>
        let mult : ℚ :=
          match difficultyMultiplier with
          | some m => if m = 0 then 1 else m
          | none => 1
        (GOAL_COMPLETION_BASE_XP : ℚ) * mult
    | .complete_daily_target => (DAILY_GOAL_COMPLETION_XP : ℚ)
  currentXp + jsRound xpGained

/-! ## Workout log coordinator (`src/contexts/WorkoutContext.tsx`) -/

/-- The part of the React provider state that the coordinator touches. -/
structure AppState where
  streakData : StreakData
  xp : Int
deriving DecidableEq, Repr

/-- Coordinator callback `addWorkout` of `WorkoutContext.tsx`, restricted to its
effect on the streak and XP state.  The callback is memoised with
`useCallback(..., [streakData])`, so the `streakData` identifier read inside
the `setXp` updater is the state value captured at the render that created the
callback — the *pre-update* snapshot, not the value produced by the
`setStreakData` updater in the same invocation.  `previousStreakData` is
likewise a copy of the pre-update state.  Both snapshots passed to
`calculateXp` therefore coincide with the pre-update streak record. -/
def addWorkout (state : AppState) (workoutDate : Int) : AppState :=
  let previousStreakData := state.streakData
  let updatedStreak := updateStreakData state.streakData workoutDate
  let capturedStreakData := state.streakData
  let newXp :=
    calculateXp state.xp .log_workout
      (some capturedStreakData) (some previousStreakData)
  { streakData := updatedStreak, xp := newXp }

/-! ## Operation sequences over the streak store -/

/-- One operation on the streak store: logging a workout, the on-load gap
check (with its current date), or the explicit reset. -/
inductive StreakOp where
  | record (date : Int)
  | check (today : Int)
  | reset
deriving DecidableEq

def applyStreakOp (s : StreakData) : StreakOp → StreakData
  | .record date => updateStreakData s date
  | .check today => checkAndResetStreak s today
  | .reset => resetStreakData

/-- Run a sequence of streak-store operations from the zero default. -/
def runStreakOps (ops : List StreakOp) : StreakData :=
  ops.foldl applyStreakOp initialStreakData

/-! ## Helper lemmas -/

@[simp]
theorem bumpLongest_currentStreak (a : StreakData) :
    (bumpLongest a).currentStreak = a.currentStreak := by
  unfold bumpLongest; split_ifs <;> rfl

@[simp]
theorem bumpLongest_lastWorkoutDate (a : StreakData) :
    (bumpLongest a).lastWorkoutDate = a.lastWorkoutDate := by
  unfold bumpLongest; split_ifs <;> rfl

@[simp]
theorem bumpLongest_streakFreezes (a : StreakData) :
    (bumpLongest a).streakFreezes = a.streakFreezes := by
  unfold bumpLongest; split_ifs <;> rfl

@[simp]
theorem bumpLongest_lastFreezeEarnedDate (a : StreakData) :
    (bumpLongest a).lastFreezeEarnedDate = a.lastFreezeEarnedDate := by
  unfold bumpLongest; split_ifs <;> rfl

theorem bumpLongest_longestStreak (a : StreakData) :
    (bumpLongest a).longestStreak =
      if a.currentStreak > a.longestStreak then a.currentStreak
      else a.longestStreak := by
  unfold bumpLongest; split_ifs <;> rfl

theorem finishUpdate_currentStreak (c a : StreakData) (d : Int) :
    (finishUpdate c a d).currentStreak = a.currentStreak := by
  simp only [finishUpdate]
  split_ifs <;> simp

theorem finishUpdate_lastWorkoutDate (c a : StreakData) (d : Int) :
    (finishUpdate c a d).lastWorkoutDate = a.lastWorkoutDate := by
  simp only [finishUpdate]
  split_ifs <;> simp

theorem finishUpdate_longestStreak (c a : StreakData) (d : Int) :
    (finishUpdate c a d).longestStreak =
      if a.currentStreak > a.longestStreak then a.currentStreak
      else a.longestStreak := by
  rw [← bumpLongest_longestStreak]
  simp only [finishUpdate]
  split_ifs <;> simp

/-- The freeze condition in `finishUpdate`: the streak moved strictly upward
onto a multiple of 7 and `lastFreezeEarnedDate` (of the pre-update record) is
unset or strictly before the workout date. -/
def freezeAwarded (c a : StreakData) (d : Int) : Prop :=
  c.currentStreak < a.currentStreak ∧ a.currentStreak % 7 = 0 ∧
    ∀ le, c.lastFreezeEarnedDate = some le → le < d

instance (c a : StreakData) (d : Int) : Decidable (freezeAwarded c a d) := by
  unfold freezeAwarded
  exact instDecidableAnd

/-- Exact effect of `finishUpdate` on the freeze fields, given that the
intermediate record still carries the pre-update `lastFreezeEarnedDate`
(which every call site does). -/
theorem finishUpdate_freeze (c a : StreakData) (d : Int)
    (hfe : a.lastFreezeEarnedDate = c.lastFreezeEarnedDate) :
    (freezeAwarded c a d →
      (finishUpdate c a d).streakFreezes = a.streakFreezes + 1 ∧
      (finishUpdate c a d).lastFreezeEarnedDate = some d) ∧
    (¬ freezeAwarded c a d →
      (finishUpdate c a d).streakFreezes = a.streakFreezes ∧
      (finishUpdate c a d).lastFreezeEarnedDate = a.lastFreezeEarnedDate) := by
  unfold freezeAwarded
  rcases hle : c.lastFreezeEarnedDate with _ | le <;>
    simp only [finishUpdate, bumpLongest_currentStreak,
      bumpLongest_lastFreezeEarnedDate, hfe, hle] <;>
    split_ifs with h1 h2 <;>
    constructor <;> intro h <;>
    simp_all <;>
    omega

/-! ## Claim theorems -/

/-- C6: logging a workout dated the same calendar day as `lastWorkoutDate`
leaves the whole streak record unchanged (same-day re-log is idempotent for
streak purposes); in particular `currentStreak` is unchanged. -/
theorem updateStreakData_same_day (S : StreakData) (D : Int)
    (h : S.lastWorkoutDate = some D) : updateStreakData S D = S := by
  unfold updateStreakData
  rw [h]
  simp

/-- Witness for `updateStreakData_same_day` at a concrete record. -/
theorem updateStreakData_same_day_witness :
    updateStreakData
        { currentStreak := 5, longestStreak := 8, lastWorkoutDate := some 100,
          streakFreezes := 2, lastFreezeEarnedDate := some 99 } 100 =
      { currentStreak := 5, longestStreak := 8, lastWorkoutDate := some 100,
        streakFreezes := 2, lastFreezeEarnedDate := some 99 } :=
  updateStreakData_same_day _ 100 rfl

/-- C1: with `lastWorkoutDate = Y`, logging a workout dated `Y + 1`
increments `currentStreak` by exactly 1, and logging one dated `Y + k` for any
`k > 1` sets `currentStreak` to 1. -/
theorem updateStreakData_gap (S : StreakData) (Y : Int)
    (h : S.lastWorkoutDate = some Y) :
    (updateStreakData S (Y + 1)).currentStreak = S.currentStreak + 1 ∧
    ∀ k : Int, 1 < k → (updateStreakData S (Y + k)).currentStreak = 1 := by
  constructor
  · simp only [updateStreakData, h]
    split_ifs <;> simp_all [finishUpdate_currentStreak]
  · intro k hk
    simp only [updateStreakData, h]
    split_ifs <;> simp_all [finishUpdate_currentStreak]

/-- Witness for `updateStreakData_gap`: consecutive day 11 after day 10
raises the streak from 3 to 4; day 13 (gap of 3) resets it to 1. -/
theorem updateStreakData_gap_witness :
    (updateStreakData
        { currentStreak := 3, longestStreak := 3, lastWorkoutDate := some 10,
          streakFreezes := 0, lastFreezeEarnedDate := none } 11).currentStreak
        = 3 + 1 ∧
    (updateStreakData
        { currentStreak := 3, longestStreak := 3, lastWorkoutDate := some 10,
          streakFreezes := 0, lastFreezeEarnedDate := none } 13).currentStreak
        = 1 := by
  have h := updateStreakData_gap
    { currentStreak := 3, longestStreak := 3, lastWorkoutDate := some 10,
      streakFreezes := 0, lastFreezeEarnedDate := none } 10 rfl
  refine ⟨?_, h.2 3 (by norm_num)⟩
  have h10 : (10 : Int) + 1 = 11 := by norm_num
  exact h10 ▸ h.1

/-- C7: when `lastWorkoutDate` is exactly 2 days before `today` and the single
skipped day (yesterday) was a Sunday, the gap check is a complete no-op. -/
theorem checkAndResetStreak_sunday_rest (S : StreakData) (today lw : Int)
    (h : S.lastWorkoutDate = some lw) (hgap : today - lw = 2)
    (hsun : isSunday (today - 1)) :
    checkAndResetStreak S today = S := by
  simp only [checkAndResetStreak, h]
  split_ifs <;> simp_all

/-- Witness for `checkAndResetStreak_sunday_rest`: day 101 is a Sunday
(`(101 + 4) % 7 = 0`), last workout Friday day 100, today Monday day 102. -/
theorem checkAndResetStreak_sunday_rest_witness :
    checkAndResetStreak
        { currentStreak := 5, longestStreak := 8, lastWorkoutDate := some 100,
          streakFreezes := 2, lastFreezeEarnedDate := none } 102 =
      { currentStreak := 5, longestStreak := 8, lastWorkoutDate := some 100,
        streakFreezes := 2, lastFreezeEarnedDate := none } :=
  checkAndResetStreak_sunday_rest _ 102 100 rfl (by norm_num) (by decide)

/-- C2: with a gap of `g ≥ 2` days since `lastWorkoutDate` and the Sunday
exception not applying, the gap check consumes `g - 1` freezes and advances
`lastWorkoutDate` to yesterday when enough freezes are available (leaving
`currentStreak` unchanged), and otherwise resets `currentStreak` to 0 leaving
`lastWorkoutDate` and `streakFreezes` unchanged. -/
theorem checkAndResetStreak_gap (S : StreakData) (today lw g : Int)
    (h : S.lastWorkoutDate = some lw) (hgap : today - lw = g) (hg : 2 ≤ g)
    (hsun : ¬(g = 2 ∧ isSunday (today - 1))) :
    (g - 1 ≤ S.streakFreezes →
      (checkAndResetStreak S today).streakFreezes = S.streakFreezes - (g - 1) ∧
      (checkAndResetStreak S today).lastWorkoutDate = some (today - 1) ∧
      (checkAndResetStreak S today).currentStreak = S.currentStreak) ∧
    (S.streakFreezes < g - 1 →
      (checkAndResetStreak S today).currentStreak = 0 ∧
      (checkAndResetStreak S today).lastWorkoutDate = S.lastWorkoutDate ∧
      (checkAndResetStreak S today).streakFreezes = S.streakFreezes) := by
  simp only [checkAndResetStreak, h]
  split_ifs <;> constructor <;> intro hf <;> simp_all <;> omega

/-- Witness for `checkAndResetStreak_gap`, freeze branch: gap 3 with 2
freezes available consumes both and bridges to yesterday (day 102); day 102
is not a Sunday, and `g = 3` escapes the rest-day exception anyway. -/
theorem checkAndResetStreak_gap_witness :
    (checkAndResetStreak
        { currentStreak := 5, longestStreak := 8, lastWorkoutDate := some 100,
          streakFreezes := 2, lastFreezeEarnedDate := none } 103).streakFreezes
        = 2 - (3 - 1) ∧
    (checkAndResetStreak
        { currentStreak := 5, longestStreak := 8, lastWorkoutDate := some 100,
          streakFreezes := 2, lastFreezeEarnedDate := none } 103).lastWorkoutDate
        = some (103 - 1) ∧
    (checkAndResetStreak
        { currentStreak := 5, longestStreak := 8, lastWorkoutDate := some 100,
          streakFreezes := 2, lastFreezeEarnedDate := none } 103).currentStreak
        = 5 := by
  have h := checkAndResetStreak_gap
    { currentStreak := 5, longestStreak := 8, lastWorkoutDate := some 100,
      streakFreezes := 2, lastFreezeEarnedDate := none } 103 100 3 rfl
    (by norm_num) (by norm_num) (by norm_num)
  exact h.1 (by norm_num)

/-- C10 (frame of the gap check): `checkAndResetStreak` never increases a
non-negative `currentStreak`, never changes `longestStreak` or
`lastFreezeEarnedDate`, can change `currentStreak` only to 0, can only lower
`streakFreezes`, and can change `lastWorkoutDate` only to yesterday. -/
theorem checkAndResetStreak_frame (S : StreakData) (today : Int)
    (h0 : 0 ≤ S.currentStreak) :
    (checkAndResetStreak S today).currentStreak ≤ S.currentStreak ∧
    (checkAndResetStreak S today).longestStreak = S.longestStreak ∧
    (checkAndResetStreak S today).lastFreezeEarnedDate =
      S.lastFreezeEarnedDate ∧
    ((checkAndResetStreak S today).currentStreak = S.currentStreak ∨
      (checkAndResetStreak S today).currentStreak = 0) ∧
    (checkAndResetStreak S today).streakFreezes ≤ S.streakFreezes ∧
    ((checkAndResetStreak S today).lastWorkoutDate = S.lastWorkoutDate ∨
      (checkAndResetStreak S today).lastWorkoutDate = some (today - 1)) := by
  rcases hlw : S.lastWorkoutDate with _ | lw
  · simp [checkAndResetStreak, hlw]
  · simp only [checkAndResetStreak, hlw]
    split_ifs <;> simp_all <;> omega

/-- Witness for `checkAndResetStreak_frame` at a concrete record (gap 4,
1 freeze: insufficient, so the streak resets in place). -/
theorem checkAndResetStreak_frame_witness :
    (checkAndResetStreak
        { currentStreak := 9, longestStreak := 9, lastWorkoutDate := some 100,
          streakFreezes := 1, lastFreezeEarnedDate := some 98 } 104).currentStreak
        ≤ 9 ∧
    (checkAndResetStreak
        { currentStreak := 9, longestStreak := 9, lastWorkoutDate := some 100,
          streakFreezes := 1, lastFreezeEarnedDate := some 98 } 104).longestStreak
        = 9 ∧
    (checkAndResetStreak
        { currentStreak := 9, longestStreak := 9, lastWorkoutDate := some 100,
          streakFreezes := 1, lastFreezeEarnedDate := some 98 } 104).lastFreezeEarnedDate
        = some 98 ∧
    ((checkAndResetStreak
        { currentStreak := 9, longestStreak := 9, lastWorkoutDate := some 100,
          streakFreezes := 1, lastFreezeEarnedDate := some 98 } 104).currentStreak
        = 9 ∨
      (checkAndResetStreak
        { currentStreak := 9, longestStreak := 9, lastWorkoutDate := some 100,
          streakFreezes := 1, lastFreezeEarnedDate := some 98 } 104).currentStreak
        = 0) ∧
    (checkAndResetStreak
        { currentStreak := 9, longestStreak := 9, lastWorkoutDate := some 100,
          streakFreezes := 1, lastFreezeEarnedDate := some 98 } 104).streakFreezes
        ≤ 1 ∧
    ((checkAndResetStreak
        { currentStreak := 9, longestStreak := 9, lastWorkoutDate := some 100,
          streakFreezes := 1, lastFreezeEarnedDate := some 98 } 104).lastWorkoutDate
        = some 100 ∨
      (checkAndResetStreak
        { currentStreak := 9, longestStreak := 9, lastWorkoutDate := some 100,
          streakFreezes := 1, lastFreezeEarnedDate := some 98 } 104).lastWorkoutDate
        = some (104 - 1)) :=
  checkAndResetStreak_frame
    { currentStreak := 9, longestStreak := 9, lastWorkoutDate := some 100,
      streakFreezes := 1, lastFreezeEarnedDate := some 98 } 104 (by norm_num)

/-- The invariant maintained by every streak-store operation: the streak is
non-negative and never exceeds the longest streak. -/
def StreakInv (s : StreakData) : Prop :=
  0 ≤ s.currentStreak ∧ s.currentStreak ≤ s.longestStreak

theorem streakInv_initial : StreakInv initialStreakData := by
  constructor <;> norm_num [initialStreakData]

theorem streakInv_update (s : StreakData) (d : Int) (h : StreakInv s) :
    StreakInv (updateStreakData s d) := by
  obtain ⟨h0, h1⟩ := h
  unfold StreakInv
  rcases hlw : s.lastWorkoutDate with _ | lw
  · simp only [updateStreakData, hlw, finishUpdate_currentStreak,
      finishUpdate_longestStreak]
    split_ifs <;> simp_all <;> omega
  · simp only [updateStreakData, hlw]
    split_ifs <;>
      simp_all [finishUpdate_currentStreak, finishUpdate_longestStreak] <;>
      first
        | omega
        | (split_ifs <;> simp_all <;> omega)

theorem streakInv_check (s : StreakData) (t : Int) (h : StreakInv s) :
    StreakInv (checkAndResetStreak s t) := by
  obtain ⟨h0, h1⟩ := h
  unfold StreakInv
  rcases hlw : s.lastWorkoutDate with _ | lw
  · simp only [checkAndResetStreak, hlw]
    omega
  · simp only [checkAndResetStreak, hlw]
    split_ifs <;> simp_all <;> omega

theorem streakInv_applyOp (s : StreakData) (op : StreakOp) (h : StreakInv s) :
    StreakInv (applyStreakOp s op) := by
  cases op with
  | record d => exact streakInv_update s d h
  | check t => exact streakInv_check s t h
  | reset => exact streakInv_initial

theorem streakInv_foldl (ops : List StreakOp) :
    ∀ s, StreakInv s → StreakInv (ops.foldl applyStreakOp s) := by
  induction ops with
  | nil => intro s hs; exact hs
  | cons op rest ih => intro s hs; exact ih _ (streakInv_applyOp s op hs)

/-- C5: after any sequence of `recordWorkout`, gap-check and reset operations
starting from the zero default, `longestStreak ≥ currentStreak`. -/
theorem runStreakOps_longest_ge_current (ops : List StreakOp) :
    (runStreakOps ops).currentStreak ≤ (runStreakOps ops).longestStreak :=
  (streakInv_foldl ops initialStreakData streakInv_initial).2

/-- Lemma `finishUpdate_freeze` rephrased as an iff on the final record, for an
intermediate record that also preserves `streakFreezes`. -/
theorem finishUpdate_freeze_iff (c a : StreakData) (d : Int)
    (hfe : a.lastFreezeEarnedDate = c.lastFreezeEarnedDate)
    (hsf : a.streakFreezes = c.streakFreezes)
    (h0 : 0 ≤ c.currentStreak) :
    ((finishUpdate c a d).streakFreezes = c.streakFreezes + 1 ∧
        (finishUpdate c a d).lastFreezeEarnedDate = some d ↔
      c.currentStreak < a.currentStreak ∧ 0 < a.currentStreak ∧
        a.currentStreak % 7 = 0 ∧
        ∀ le, c.lastFreezeEarnedDate = some le → le < d) ∧
    (¬(c.currentStreak < a.currentStreak ∧ a.currentStreak % 7 = 0 ∧
        ∀ le, c.lastFreezeEarnedDate = some le → le < d) →
      (finishUpdate c a d).streakFreezes = c.streakFreezes ∧
      (finishUpdate c a d).lastFreezeEarnedDate = c.lastFreezeEarnedDate) := by
  have hf := finishUpdate_freeze c a d hfe
  by_cases hA : freezeAwarded c a d
  · obtain ⟨hs, hl⟩ := hf.1 hA
    obtain ⟨h1, h2, h3⟩ := hA
    refine ⟨⟨fun _ => ⟨h1, by omega, h2, h3⟩, fun _ => ⟨by omega, hl⟩⟩,
      fun hn => absurd ⟨h1, h2, h3⟩ hn⟩
  · obtain ⟨hs, hl⟩ := hf.2 hA
    unfold freezeAwarded at hA
    refine ⟨⟨fun hx => absurd hx.1 (by omega), fun hx => absurd ⟨hx.1, hx.2.2⟩ hA⟩,
      fun _ => ⟨by omega, hl.trans hfe⟩⟩

/-- C3 counterexample: in the record below the update moves `currentStreak`
strictly upward onto the positive multiple 7 and no freeze has ever been
credited for the workout's calendar day 101 (`lastFreezeEarnedDate` is
day 200), yet no freeze is awarded — the code also blocks when
`lastFreezeEarnedDate` lies *after* the workout date, not only when it equals
it. -/
theorem updateStreakData_freeze_counterexample :
    (updateStreakData
        { currentStreak := 6, longestStreak := 6, lastWorkoutDate := some 100,
          streakFreezes := 0, lastFreezeEarnedDate := some 200 } 101).currentStreak
        = 7 ∧
    (6 : Int) < 7 ∧ (0 : Int) < 7 ∧ (7 : Int) % 7 = 0 ∧
    (200 : Int) ≠ 101 ∧
    (updateStreakData
        { currentStreak := 6, longestStreak := 6, lastWorkoutDate := some 100,
          streakFreezes := 0, lastFreezeEarnedDate := some 200 } 101).streakFreezes
        = 0 ∧
    (updateStreakData
        { currentStreak := 6, longestStreak := 6, lastWorkoutDate := some 100,
          streakFreezes := 0, lastFreezeEarnedDate := some 200 } 101).lastFreezeEarnedDate
        = some 200 := by
  decide

/-- C3 (amended): `updateStreakData` increments `streakFreezes` by 1 and sets
`lastFreezeEarnedDate` to the workout date precisely when the update moved
`currentStreak` strictly upward onto a positive multiple of 7 and
`lastFreezeEarnedDate` is unset or strictly before the workout date (in
particular, never when a freeze was already credited on or after that day);
in every other case both freeze fields are unchanged. -/
theorem updateStreakData_freeze_award (S : StreakData) (D : Int)
    (h0 : 0 ≤ S.currentStreak) :
    ((updateStreakData S D).streakFreezes = S.streakFreezes + 1 ∧
        (updateStreakData S D).lastFreezeEarnedDate = some D ↔
      S.currentStreak < (updateStreakData S D).currentStreak ∧
        0 < (updateStreakData S D).currentStreak ∧
        (updateStreakData S D).currentStreak % 7 = 0 ∧
        ∀ le, S.lastFreezeEarnedDate = some le → le < D) ∧
    (¬(S.currentStreak < (updateStreakData S D).currentStreak ∧
        (updateStreakData S D).currentStreak % 7 = 0 ∧
        ∀ le, S.lastFreezeEarnedDate = some le → le < D) →
      (updateStreakData S D).streakFreezes = S.streakFreezes ∧
      (updateStreakData S D).lastFreezeEarnedDate = S.lastFreezeEarnedDate) := by
  rcases hlw : S.lastWorkoutDate with _ | lw
  · simp only [updateStreakData, hlw, finishUpdate_currentStreak]
    exact finishUpdate_freeze_iff S _ D rfl rfl h0
  · by_cases hD : D = lw
    · have hS : updateStreakData S D = S := by
        simp only [updateStreakData, hlw]
        rw [if_pos hD]
      rw [hS]
      refine ⟨⟨fun hx => absurd hx.1 (by omega), fun hx => absurd hx.1 (by omega)⟩,
        fun _ => ⟨rfl, rfl⟩⟩
    · simp only [updateStreakData, hlw, if_neg hD, finishUpdate_currentStreak]
      split_ifs <;> exact finishUpdate_freeze_iff S _ D rfl rfl h0

/-- Witness for `updateStreakData_freeze_award`: reaching a 7-day streak with
the last freeze earned a week earlier awards exactly one new freeze dated to
the workout day. -/
theorem updateStreakData_freeze_award_witness :
    (updateStreakData
        { currentStreak := 6, longestStreak := 10, lastWorkoutDate := some 100,
          streakFreezes := 3, lastFreezeEarnedDate := some 94 } 101).streakFreezes
        = 3 + 1 ∧
    (updateStreakData
        { currentStreak := 6, longestStreak := 10, lastWorkoutDate := some 100,
          streakFreezes := 3, lastFreezeEarnedDate := some 94 } 101).lastFreezeEarnedDate
        = some 101 :=
  (updateStreakData_freeze_award
      { currentStreak := 6, longestStreak := 10, lastWorkoutDate := some 100,
        streakFreezes := 3, lastFreezeEarnedDate := some 94 } 101
      (by norm_num)).1.mpr (by decide)

theorem jsRound_intCast (n : Int) : jsRound (n : ℚ) = n := by
  unfold jsRound
  rw [add_comm, Int.floor_add_int]
  norm_num

/-- Evaluated form of the `log_workout` case of `calculateXp` when both
snapshots are present: the rational detour through `Math.round` is the
identity because the summands are integers. -/
theorem calculateXp_log_workout_eval (xp : Int) (cur prev : StreakData) :
    calculateXp xp .log_workout (some cur) (some prev) =
      xp + BASE_WORKOUT_XP +
        firstMilestoneBonus STREAK_MILESTONE_XP
          prev.currentStreak cur.currentStreak := by
  simp only [calculateXp]
  rw [← Int.cast_add, jsRound_intCast]
  omega

/-- The milestone bonus as the spec words it: the bonus of the smallest
threshold `t` among 7, 14, 30, 60 with `previous < t ≤ current`, or 0 when no
threshold is crossed.  Stated separately from `firstMilestoneBonus` (which
follows the code's loop) so that C8 is a genuine refinement statement. -/
def specMilestoneBonus (previous current : Int) : Int :=
  if previous < 7 ∧ 7 ≤ current then 50
  else if previous < 14 ∧ 14 ≤ current then 100
  else if previous < 30 ∧ 30 ≤ current then 250
  else if previous < 60 ∧ 60 ≤ current then 500
  else 0

theorem firstMilestoneBonus_eq_spec (p c : Int) :
    firstMilestoneBonus STREAK_MILESTONE_XP p c = specMilestoneBonus p c := by
  simp only [STREAK_MILESTONE_XP, firstMilestoneBonus, specMilestoneBonus]
  split_ifs <;> first | rfl | omega

/-- C8: a `log_workout` award with both streak snapshots adds the base
workout XP plus the bonus of the smallest crossed threshold (none when no
threshold satisfies `previous < t ≤ current`); at most one bonus is granted
even when the transition spans several thresholds. -/
theorem calculateXp_log_workout (xp : Int) (cur prev : StreakData) :
    calculateXp xp .log_workout (some cur) (some prev) =
      xp + BASE_WORKOUT_XP +
        specMilestoneBonus prev.currentStreak cur.currentStreak := by
  rw [calculateXp_log_workout_eval, firstMilestoneBonus_eq_spec]

theorem jsRound_hundred : jsRound (100 : ℚ) = 100 := by
  have h := jsRound_intCast 100
  norm_num at h
  exact h

/-- C9 counterexample: a caller-supplied difficulty multiplier of 0 is falsy
in `event.difficultyMultiplier || 1`, so the award falls back to the default
multiplier 1 and adds 100 XP, not `round(100 × 0) = 0` as the claim's formula
requires. -/
theorem calculateXp_goal_zero_counterexample :
    calculateXp 0 (XpEvent.complete_goal (some 0)) none none = 100 ∧
    (0 : Int) + jsRound ((GOAL_COMPLETION_BASE_XP : ℚ) * 0) = 0 := by
  constructor
  · simp [calculateXp, GOAL_COMPLETION_BASE_XP, jsRound_hundred]
  · rw [mul_zero]
    have h0 : jsRound ((0 : Int) : ℚ) = 0 := jsRound_intCast 0
    norm_num at h0
    rw [h0]
    norm_num

/-- C9 (amended): for every *nonzero* multiplier `m` the goal-completion
award returns `x + round(100 · m)`; a supplied multiplier of 0 — like an
omitted one — falls back to 1 and adds exactly 100; and for `m ≥ 0` the
returned total never decreases. -/
theorem calculateXp_complete_goal (x : Int) (m : ℚ) :
    (m ≠ 0 →
      calculateXp x (XpEvent.complete_goal (some m)) none none =
        x + jsRound ((GOAL_COMPLETION_BASE_XP : ℚ) * m)) ∧
    calculateXp x (XpEvent.complete_goal (some 0)) none none =
      x + GOAL_COMPLETION_BASE_XP ∧
    calculateXp x (XpEvent.complete_goal none) none none =
      x + GOAL_COMPLETION_BASE_XP ∧
    (0 ≤ m → x ≤ calculateXp x (XpEvent.complete_goal (some m)) none none) := by
  have hround : ∀ q : ℚ, 0 ≤ q → 0 ≤ jsRound q := by
    intro q hq
    unfold jsRound
    rw [Int.floor_nonneg]
    linarith
  refine ⟨?_, ?_, ?_, ?_⟩
  · intro hm
    simp only [calculateXp, if_neg hm]
  · simp [calculateXp, GOAL_COMPLETION_BASE_XP, jsRound_hundred]
  · simp [calculateXp, GOAL_COMPLETION_BASE_XP, jsRound_hundred]
  · intro hm
    by_cases h0 : m = 0
    · subst h0
      simp [calculateXp, GOAL_COMPLETION_BASE_XP, jsRound_hundred]
    · simp only [calculateXp, if_neg h0]
      have h := hround ((GOAL_COMPLETION_BASE_XP : ℚ) * m)
        (mul_nonneg (by norm_num [GOAL_COMPLETION_BASE_XP]) hm)
      omega

/-- Witness for `calculateXp_complete_goal` at `x = 5`, `m = 3/2`:
the nonzero-multiplier formula applies and the total does not decrease. -/
theorem calculateXp_complete_goal_witness :
    calculateXp 5 (XpEvent.complete_goal (some (3 / 2))) none none =
      5 + jsRound ((GOAL_COMPLETION_BASE_XP : ℚ) * (3 / 2)) ∧
    5 ≤ calculateXp 5 (XpEvent.complete_goal (some (3 / 2))) none none :=
  ⟨(calculateXp_complete_goal 5 (3 / 2)).1 (by norm_num),
   (calculateXp_complete_goal 5 (3 / 2)).2.2.2 (by norm_num)⟩

/-- C4: at the 6 → 7 streak transition the coordinator `addWorkout` awards
only the base 10 XP.  The React callback reads the `streakData` state captured
when it was created, so `calculateXp` receives the *pre-update* snapshot for
both `currentStreakData` and `previousStreakData` and detects no milestone.
Had the post-update snapshot been passed as `currentStreakData` (as the spec
and the code's own comments intend), the same call would have returned
base + 7-day bonus = 60. -/
theorem addWorkout_six_to_seven_stale :
    (addWorkout
        { streakData :=
            { currentStreak := 6, longestStreak := 6, lastWorkoutDate := some 100,
              streakFreezes := 0, lastFreezeEarnedDate := none },
          xp := 0 } 101).streakData.currentStreak = 7 ∧
    (addWorkout
        { streakData :=
            { currentStreak := 6, longestStreak := 6, lastWorkoutDate := some 100,
              streakFreezes := 0, lastFreezeEarnedDate := none },
          xp := 0 } 101).xp = 10 ∧
    calculateXp 0 XpEvent.log_workout
        (some (updateStreakData
          { currentStreak := 6, longestStreak := 6, lastWorkoutDate := some 100,
            streakFreezes := 0, lastFreezeEarnedDate := none } 101))
        (some { currentStreak := 6, longestStreak := 6, lastWorkoutDate := some 100,
                streakFreezes := 0, lastFreezeEarnedDate := none }) = 60 := by
  refine ⟨by decide, ?_, ?_⟩
  · show calculateXp 0 .log_workout
        (some { currentStreak := 6, longestStreak := 6, lastWorkoutDate := some 100,
                streakFreezes := 0, lastFreezeEarnedDate := none })
        (some { currentStreak := 6, longestStreak := 6, lastWorkoutDate := some 100,
                streakFreezes := 0, lastFreezeEarnedDate := none }) = 10
    rw [calculateXp_log_workout_eval]
    decide
  · rw [calculateXp_log_workout_eval]
    decide

end FitTrack
